import Mathlib

/-!
Verification of the libfprint-rs binding layer.

The crate root `src/lib.rs` declares the modules `context`, `device`, `error`,
`finger`, `image`, `print` and re-exports `FpContext`, `FpDevice` (via
`device::*`), `GError`, `GErrorSource`, `Finger`, `FpFingerStatusFlags`,
`FpImage`, `FpImageData`, `FpPrint` and `SerializedPrint`.  The module files
themselves are not present in the repository snapshot; only `lib.rs` with its
doc examples and the `tests` module (callers of the API) is.  The definitions
below therefore embed the data model and the operations from the specification,
with every signature constrained by the callers in `src/lib.rs`:

* `FpContext::new()` is called as `let ctx = FpContext::new(); ctx.get_devices()`
  with no error handling, fixing an infallible return type;
* `dev.enroll(template, Some(callback_fn), Some(user_data))` returns a
  `Result`, and `callback_fn` receives
  `(device, completed_stages, print, Option<GError>, &Option<Rc<RefCell<U>>>)`;
* `dev.identify(prints, Some(match_cb_function), None, Some(&mut matched_print))`
  returns `Result<Option<FpPrint>>`, and `match_cb_function` receives the
  matched print as an `Option<FpPrint>` and the newly scanned print as a
  separate `FpPrint` argument.

Rust `Rc<RefCell<U>>` user data mutated by callbacks is embedded as explicit
state threading of a value of type `U`; native-library behaviour (enrollment
stage events, matching decisions) is a parameter of each operation.
-/

/-- Modelled from the spec: `finger.rs` is missing.  `Finger` is the enum-like
identifier of which physical finger a print corresponds to (left/right thumb,
index, middle, ring, little, or unknown). -/
inductive Finger where
  | unknown
  | leftThumb
  | leftIndex
  | leftMiddle
  | leftRing
  | leftLittle
  | rightThumb
  | rightIndex
  | rightMiddle
  | rightRing
  | rightLittle
  deriving DecidableEq, Repr

/-- Numeric code of a `Finger`, used by the binary serialization. -/
def Finger.code : Finger → Nat
  | .unknown => 0
  | .leftThumb => 1
  | .leftIndex => 2
  | .leftMiddle => 3
  | .leftRing => 4
  | .leftLittle => 5
  | .rightThumb => 6
  | .rightIndex => 7
  | .rightMiddle => 8
  | .rightRing => 9
  | .rightLittle => 10

/-- Decode a numeric code back into a `Finger`. -/
def Finger.ofCode : Nat → Option Finger
  | 0 => some .unknown
  | 1 => some .leftThumb
  | 2 => some .leftIndex
  | 3 => some .leftMiddle
  | 4 => some .leftRing
  | 5 => some .leftLittle
  | 6 => some .rightThumb
  | 7 => some .rightIndex
  | 8 => some .rightMiddle
  | 9 => some .rightRing
  | 10 => some .rightLittle
  | _ => none

/-- Modelled from the spec: `error.rs` is missing.  The closed set of error
kinds of the Error Translator, plus the wrapper-level not-open class raised
entirely within the wrapper. -/
inductive GErrorKind where
  | notFound
  | invalidArgument
  | busy
  | permissionDenied
  | cancelled
  | protocolError
  | notSupported
  | internal
  | notOpen
  deriving DecidableEq, Repr

/-- Modelled from the spec: `error.rs` is missing.  A translated error: a
discriminated kind together with the preserved human-readable message. -/
structure GError where
  kind : GErrorKind
  message : String
  deriving DecidableEq, Repr

/-- The wrapper-level error returned for operations on a device that is not
open. -/
def notOpenError : GError := { kind := .notOpen, message := "device not open" }

/-- The wrapper-level error returned when closing an already-closed device. -/
def alreadyClosedError : GError :=
  { kind := .notOpen, message := "device already closed" }

/-- The error returned when opening an already-open device. -/
def alreadyOpenError : GError :=
  { kind := .busy, message := "device already open" }

/-- The terminal error of a cancelled operation. -/
def cancelledError : GError :=
  { kind := .cancelled, message := "operation cancelled" }

/-- Modelled from the spec: `print.rs` is missing.  A fingerprint template:
optional user-supplied username, finger identifier, and the opaque
matching payload produced by the native library, kept as a raw byte
sequence the binding never interprets. -/
structure FpPrint where
  username : Option String
  finger : Finger
  payload : List Nat
  deriving DecidableEq, Repr

/-- Plain accessor `set_username` (the caller in `lib.rs` writes
`template.set_username("Bruce Banner")`). -/
def FpPrint.setUsername (p : FpPrint) (s : String) : FpPrint :=
  { p with username := some s }

/-- Plain accessor `set_finger`. -/
def FpPrint.setFinger (p : FpPrint) (f : Finger) : FpPrint :=
  { p with finger := f }

/-- Plain accessor `get_username`. -/
def FpPrint.getUsername (p : FpPrint) : Option String := p.username

/-- Plain accessor `get_finger`. -/
def FpPrint.getFinger (p : FpPrint) : Finger := p.finger

/-- Modelled from the spec: the stable binary representation is a byte
sequence; `SerializedPrint` is the serialized form of a print. -/
def SerializedPrint : Type := List Nat

/-- Variable-length base-128 encoding of a natural number (low groups
first; every byte of the result is below 256). -/
def encNat (n : Nat) : List Nat :=
  if h : n < 128 then [n]
  else (n % 128 + 128) :: encNat (n / 128)
termination_by n
decreasing_by
  exact Nat.div_lt_self (by omega) (by omega)

/-- Decode a base-128 encoded natural number, returning the value and the
unconsumed remainder of the byte sequence. -/
def decNat : List Nat → Option (Nat × List Nat)
  | [] => none
  | b :: rest =>
    if b < 128 then some (b, rest)
    else
      match decNat rest with
      | some (m, rest') => some (b - 128 + 128 * m, rest')
      | none => none

theorem decNat_encNat (n : Nat) (rest : List Nat) :
    decNat (encNat n ++ rest) = some (n, rest) := by
  induction n using Nat.strong_induction_on with
  | _ n ih =>
    by_cases h : n < 128
    · rw [encNat]
      simp [h, decNat]
    · rw [encNat]
      simp only [h, dite_false, List.cons_append, decNat]
      have hb : ¬ (n % 128 + 128 < 128) := by omega
      have hdiv : n / 128 < n := Nat.div_lt_self (by omega) (by omega)
      simp only [hb, if_false]
      rw [ih (n / 128) hdiv]
      have hn : n % 128 + 128 * (n / 128) = n := Nat.mod_add_div n 128
      simp
      omega

/-- Encode a list element-wise, prefixed by its length. -/
def encList (enc : α → List Nat) (xs : List α) : List Nat :=
  encNat xs.length ++ xs.flatMap enc

/-- Decode exactly `k` consecutive elements. -/
def decCount (dec : List Nat → Option (α × List Nat)) :
    Nat → List Nat → Option (List α × List Nat)
  | 0, bs => some ([], bs)
  | k + 1, bs =>
    match dec bs with
    | some (a, bs') =>
      match decCount dec k bs' with
      | some (as, bs'') => some (a :: as, bs'')
      | none => none
    | none => none

/-- Decode a length-prefixed list. -/
def decList (dec : List Nat → Option (α × List Nat)) (bs : List Nat) :
    Option (List α × List Nat) :=
  match decNat bs with
  | some (k, bs') => decCount dec k bs'
  | none => none

theorem decCount_flatMap (dec : List Nat → Option (α × List Nat))
    (enc : α → List Nat)
    (hrt : ∀ a rest, dec (enc a ++ rest) = some (a, rest))
    (xs : List α) (rest : List Nat) :
    decCount dec xs.length (xs.flatMap enc ++ rest) = some (xs, rest) := by
  induction xs with
  | nil => simp [decCount]
  | cons a as ih =>
    simp only [List.length_cons, List.flatMap_cons, List.append_assoc, decCount,
      hrt a (as.flatMap enc ++ rest), ih]

theorem decList_encList (dec : List Nat → Option (α × List Nat))
    (enc : α → List Nat)
    (hrt : ∀ a rest, dec (enc a ++ rest) = some (a, rest))
    (xs : List α) (rest : List Nat) :
    decList dec (encList enc xs ++ rest) = some (xs, rest) := by
  unfold encList decList
  rw [List.append_assoc, decNat_encNat]
  exact decCount_flatMap dec enc hrt xs rest

/-- Encode one character as its code point. -/
def encChar (c : Char) : List Nat := encNat c.toNat

/-- Decode one character. -/
def decChar (bs : List Nat) : Option (Char × List Nat) :=
  match decNat bs with
  | some (n, rest) => some (Char.ofNat n, rest)
  | none => none

theorem decChar_encChar (c : Char) (rest : List Nat) :
    decChar (encChar c ++ rest) = some (c, rest) := by
  unfold decChar encChar
  rw [decNat_encNat]
  simp [Char.ofNat_toNat]

/-- Encode a string as the length-prefixed list of its characters. -/
def encString (s : String) : List Nat := encList encChar s.data

/-- Decode a string. -/
def decString (bs : List Nat) : Option (String × List Nat) :=
  match decList decChar bs with
  | some (cs, rest) => some (String.mk cs, rest)
  | none => none

theorem decString_encString (s : String) (rest : List Nat) :
    decString (encString s ++ rest) = some (s, rest) := by
  unfold decString encString
  rw [decList_encList decChar encChar decChar_encChar]

/-- Encode an optional value behind a presence tag byte. -/
def encOption (enc : α → List Nat) : Option α → List Nat
  | none => [0]
  | some a => 1 :: enc a

/-- Decode an optional value. -/
def decOption (dec : List Nat → Option (α × List Nat)) :
    List Nat → Option (Option α × List Nat)
  | [] => none
  | 0 :: rest => some (none, rest)
  | 1 :: rest =>
    match dec rest with
    | some (a, rest') => some (some a, rest')
    | none => none
  | _ :: _ => none

theorem decOption_encOption (dec : List Nat → Option (α × List Nat))
    (enc : α → List Nat)
    (hrt : ∀ a rest, dec (enc a ++ rest) = some (a, rest))
    (o : Option α) (rest : List Nat) :
    decOption dec (encOption enc o ++ rest) = some (o, rest) := by
  cases o with
  | none => simp [encOption, decOption]
  | some a =>
    simp only [encOption, List.cons_append, decOption]
    rw [hrt a rest]

/-- Serialization of a print, modelled from the spec: a stable binary
representation holding the username, the finger identifier, and the opaque
matching payload byte-for-byte. -/
def FpPrint.serialize (p : FpPrint) : SerializedPrint :=
  encOption encString p.username ++ encNat p.finger.code ++ encList encNat p.payload

/-- Deserialization of a print from its stable binary representation. -/
def FpPrint.deserialize (bs : SerializedPrint) : Option FpPrint :=
  match decOption decString bs with
  | some (u, bs1) =>
    match decNat bs1 with
    | some (fc, bs2) =>
      match Finger.ofCode fc with
      | some f =>
        match decList decNat bs2 with
        | some (pl, bs3) =>
          match bs3 with
          | [] => some { username := u, finger := f, payload := pl }
          | _ :: _ => none
        | none => none
      | none => none
    | none => none
  | none => none

theorem fingerOfCode_code (f : Finger) : Finger.ofCode f.code = some f := by
  cases f <;> rfl

/-- Modelled from the spec: `device.rs` is missing.  The device state machine
is `Closed → Open → Closed`, single-step, with no intermediate states. -/
inductive DevState where
  | closed
  | opened
  deriving DecidableEq, Repr

/-- Modelled from the spec: `device.rs` is missing.  A device wrapper handle:
its open/closed state, the number of enrollment stages the scanner needs,
a feature bitmask (queried by `get_features`), and a count of how many
times its native resources have been released by `close`. -/
structure FpDevice where
  state : DevState
  nrEnrollStages : Nat
  features : Nat
  releasedCount : Nat
  deriving DecidableEq, Repr

/-- Modelled from the spec: `image.rs` is missing.  A raw captured
fingerprint image: dimensions plus pixel data, read-only for callers. -/
structure FpImage where
  width : Nat
  height : Nat
  data : List Nat
  deriving DecidableEq, Repr

/-- Modelled from the spec: `open()` fails if the device is already open
(`Busy`/`AlreadyOpen`); otherwise the device moves to the `opened` state. -/
def FpDevice.openDev (d : FpDevice) : Except GError FpDevice :=
  if d.state = .opened then .error alreadyOpenError
  else .ok { d with state := .opened }

/-- Modelled from the spec: `close()` releases native resources on the first
call; a call on an already-closed device fails with the already-closed error
and releases nothing.  The second component of the result is the device after
the call; the third records whether this call released native resources. -/
def FpDevice.close (d : FpDevice) : Except GError Unit × FpDevice × Bool :=
  if d.state = .closed then (.error alreadyClosedError, d, false)
  else (.ok (), { d with state := .closed, releasedCount := d.releasedCount + 1 }, true)

/-- Terminal outcome of a native enrollment routine. -/
inductive EnrollOutcome where
  | success (p : FpPrint)
  | failure (e : GError)
  deriving DecidableEq, Repr

/-- Modelled from the spec: one run of the native enrollment routine, as
observed through the foreign-function boundary: the per-stage events (the
in-progress print and an optional per-stage error, reported to the progress
callback once per completed stage) followed by exactly one terminal
outcome. -/
structure NativeEnrollRun where
  stages : List (FpPrint × Option GError)
  outcome : EnrollOutcome
  deriving DecidableEq, Repr

/-- A progress callback, as declared by `callback_fn` in `src/lib.rs`:
it receives the device, the number of completed stages, the in-progress
print, an optional per-stage error, and the user data; the `Rc<RefCell<_>>`
mutation of the user data is embedded as returning its updated value. -/
def ProgressCb (U : Type) : Type :=
  FpDevice → Nat → FpPrint → Option GError → U → U

/-- One step of the enrollment loop: on each native stage event the optional
progress callback is invoked with the device, the number of completed stages,
the in-progress print and the per-stage error, threading the user data; the
second component counts the callback invocations. -/
def enrollStep {U : Type} (cb : Option (ProgressCb U)) (d : FpDevice) :
    U × Nat → FpPrint × Option GError → U × Nat := fun acc ev =>
  match cb with
  | some f => (f d (acc.2 + 1) ev.1 ev.2 acc.1, acc.2 + 1)
  | none => acc

/-- Result of an `enroll` call: the terminal `Result`, the device after the
call, the final user data, how many times the progress callback was invoked,
and whether any native entry point was invoked. -/
structure EnrollResult (U : Type) where
  result : Except GError FpPrint
  dev : FpDevice
  userData : U
  cbCount : Nat
  nativeInvoked : Bool

/-- Modelled from the spec: `FpDevice::enroll` (device.rs is missing; the
signature follows the caller `dev.enroll(template, Some(callback_fn),
Some(user_data))` in `src/lib.rs`).  A closed device fails with the
wrapper-level not-open error before any native call.  On an open device the
native routine reports each stage event to the progress callback (threading
the user data through every invocation) and then yields exactly one terminal
outcome; a caller-initiated cancellation forces the cancelled terminal
error.  The device stays open throughout. -/
def FpDevice.enroll {U : Type} (d : FpDevice) (template : FpPrint)
    (cb : Option (ProgressCb U)) (u0 : U) (run : NativeEnrollRun)
    (cancelRequested : Bool) : EnrollResult U :=
  if d.state = .closed then
    { result := .error notOpenError, dev := d, userData := u0,
      cbCount := 0, nativeInvoked := false }
  else
    let fold := run.stages.foldl (enrollStep cb d) (u0, 0)
    let outcome := if cancelRequested then .failure cancelledError else run.outcome
    { result :=
        match outcome with
        | .success p => .ok p
        | .failure e => .error e,
      dev := d, userData := fold.1, cbCount := fold.2, nativeInvoked := true }

/-- A match callback, as declared by `match_cb_function` in `src/lib.rs`:
it receives the device, the matched print (if any), the newly scanned
print, an optional error, and the user data, returning the updated user
data. -/
def MatchCb (U : Type) : Type :=
  FpDevice → Option FpPrint → FpPrint → Option GError → U → U

/-- Result of an `identify` call: the returned `Result<Option<FpPrint>>`,
the device after the call, the candidate collection after the call, the
argument pairs (matched print, newly scanned print) of each match-callback
invocation, the final user data, and whether native code was invoked. -/
structure IdentifyResult (U : Type) where
  result : Except GError (Option FpPrint)
  dev : FpDevice
  candidatesAfter : List FpPrint
  invocations : List (Option FpPrint × FpPrint)
  userData : U
  nativeInvoked : Bool

/-- Modelled from the spec: `FpDevice::identify` (device.rs is missing; the
signature follows the caller `dev.identify(prints, Some(match_cb_function),
None, Some(&mut matched_print))` in `src/lib.rs`).  A closed device fails
with the wrapper-level not-open error before any native call.  On an open
device the native library captures a scan (`scan`), selects a matching
candidate according to its own matching decision (`nativeMatch`), reports the
match result and the newly scanned print to the match callback, and the
call returns the matched candidate or `none`; the candidate prints are not
modified. -/
def FpDevice.identify {U : Type} (d : FpDevice) (candidates : List FpPrint)
    (cb : Option (MatchCb U)) (u0 : U) (scan : FpPrint)
    (nativeMatch : FpPrint → FpPrint → Bool) : IdentifyResult U :=
  if d.state = .closed then
    { result := .error notOpenError, dev := d, candidatesAfter := candidates,
      invocations := [], userData := u0, nativeInvoked := false }
  else
    let matched := candidates.find? (fun c => nativeMatch c scan)
    { result := .ok matched, dev := d, candidatesAfter := candidates,
      invocations :=
        match cb with
        | some _ => [(matched, scan)]
        | none => [],
      userData :=
        match cb with
        | some f => f d matched scan none u0
        | none => u0,
      nativeInvoked := true }

/-- Modelled from the spec: `FpDevice::verify` (device.rs is missing).
Compares the enrolled print against a freshly captured scan; on a closed
device it fails with the wrapper-level not-open error before any native
call.  Returns whether they matched together with the newly captured print,
and whether native code was invoked. -/
def FpDevice.verify {U : Type} (d : FpDevice) (enrolled : FpPrint)
    (cb : Option (MatchCb U)) (u0 : U) (scan : FpPrint)
    (nativeMatch : FpPrint → FpPrint → Bool) :
    Except GError (Bool × FpPrint) × FpDevice × U × Bool :=
  if d.state = .closed then (.error notOpenError, d, u0, false)
  else
    let ok := nativeMatch enrolled scan
    let u1 :=
      match cb with
      | some f => f d (if ok then some enrolled else none) scan none u0
      | none => u0
    (.ok (ok, scan), d, u1, true)

/-- Modelled from the spec: `FpDevice::capture_image` (device.rs is
missing).  On a closed device it fails with the wrapper-level not-open error
before any native call; otherwise it returns the image the native capture
pipeline produced. -/
def FpDevice.captureImage (d : FpDevice) (native : FpImage) :
    Except GError FpImage × Bool :=
  if d.state = .closed then (.error notOpenError, false)
  else (.ok native, true)

/-- Modelled from the spec: the feature query (device.rs is missing).  On a
closed device it fails with the wrapper-level not-open error before any
native call. -/
def FpDevice.getFeatures (d : FpDevice) : Except GError Nat × Bool :=
  if d.state = .closed then (.error notOpenError, false)
  else (.ok d.features, true)

/-- Modelled from the spec: the enroll-stage query `get_nr_enroll_stages`
(device.rs is missing; called on the device inside `callback_fn` in
`src/lib.rs`).  On a closed device it fails with the wrapper-level not-open
error before any native call. -/
def FpDevice.getNrEnrollStages (d : FpDevice) : Except GError Nat × Bool :=
  if d.state = .closed then (.error notOpenError, false)
  else (.ok d.nrEnrollStages, true)

/-- Outcome of initializing the native library, as seen at the foreign
boundary when a context is created. -/
structure NativeInit where
  initOk : Bool
  devices : List FpDevice
  deriving DecidableEq, Repr

/-- A context wrapper handle: the root of device discovery. -/
structure FpContext where
  devices : List FpDevice
  deriving DecidableEq, Repr

/-- Modelled from the callers in `src/lib.rs` (context.rs is missing):
`FpContext::new()` is used as `let ctx = FpContext::new();
ctx.get_devices()` with no error handling, so its return type carries no
error channel; it yields a context handle whatever the native
initialization outcome was. -/
def FpContext.new (n : NativeInit) : FpContext :=
  { devices := n.devices }

/-- Modelled from the spec words, for comparison with `FpContext.new`:
"create() → initializes the native library, returns an owning handle ...
Fails only if native initialization fails (propagated as an initialization
error)". -/
def contextCreateSpec (n : NativeInit) : Except GError FpContext :=
  if n.initOk then .ok { devices := n.devices }
  else .error { kind := .internal, message := "native initialization failed" }

/-- `get_devices`, as called in `src/lib.rs`: enumerates the currently
attached devices of the context. -/
def FpContext.getDevices (c : FpContext) : List FpDevice := c.devices

theorem enrollStep_count {U : Type} (f : ProgressCb U) (d : FpDevice)
    (l : List (FpPrint × Option GError)) :
    ∀ (u : U) (n : Nat),
      (l.foldl (enrollStep (some f) d) (u, n)).2 = n + l.length := by
  induction l with
  | nil => intro u n; simp
  | cons ev evs ih =>
    intro u n
    simp only [List.foldl_cons, enrollStep, List.length_cons]
    rw [ih]
    omega

theorem enrollStep_iterate {U : Type} (g : U → U) (d : FpDevice)
    (l : List (FpPrint × Option GError)) :
    ∀ (u : U) (n : Nat),
      (l.foldl (enrollStep (some (fun _ _ _ _ x => g x)) d) (u, n)).1
        = g^[l.length] u := by
  induction l with
  | nil => intro u n; simp
  | cons ev evs ih =>
    intro u n
    simp only [List.foldl_cons, enrollStep, List.length_cons]
    rw [ih, Function.iterate_succ_apply]

/-- A concrete closed device used to exercise the theorems. -/
def devClosed : FpDevice :=
  { state := .closed, nrEnrollStages := 3, features := 5, releasedCount := 0 }

/-- A concrete open device used to exercise the theorems. -/
def devOpened : FpDevice :=
  { state := .opened, nrEnrollStages := 3, features := 5, releasedCount := 0 }

/-- A concrete empty print template. -/
def emptyPrint : FpPrint := { username := none, finger := .unknown, payload := [] }

/-- A concrete enrolled print. -/
def printA : FpPrint :=
  { username := some "Bruce Banner", finger := .rightIndex, payload := [1, 2, 3] }

/-- A second concrete print. -/
def printB : FpPrint :=
  { username := some "Donda", finger := .leftThumb, payload := [200, 0, 7] }

/-- A concrete native enrollment run with two stage events ending in
success. -/
def runTwoStages : NativeEnrollRun :=
  { stages := [(emptyPrint, none), (emptyPrint, some cancelledError)],
    outcome := .success printA }

/-- C1: for every Print value `p`, deserializing the result of serializing
`p` yields a Print equal to `p` in its username, its finger identifier, and
its opaque matching payload byte-for-byte; serialize followed by deserialize
is a lossless round-trip. -/
theorem serialize_deserialize_roundtrip (p : FpPrint) :
    ∃ q : FpPrint, FpPrint.deserialize (FpPrint.serialize p) = some q ∧
      q.username = p.username ∧ q.finger = p.finger ∧ q.payload = p.payload := by
  refine ⟨p, ?_, rfl, rfl, rfl⟩
  unfold FpPrint.serialize FpPrint.deserialize
  have hpl : decList decNat (encList encNat p.payload) = some (p.payload, []) := by
    have h0 := decList_encList decNat encNat decNat_encNat p.payload []
    simpa using h0
  simp only [List.append_assoc,
    decOption_encOption decString encString decString_encString,
    decNat_encNat, fingerOfCode_code, hpl]

/-- C2: on a device in the `Closed` state, `enroll`, `verify`, `identify`,
`capture_image`, the feature query and the enroll-stage query all return the
wrapper-level "device not open" error, and none of them invokes a native
library entry point. -/
theorem closed_device_ops_fail_without_native {U : Type}
    (d : FpDevice) (h : d.state = DevState.closed)
    (template : FpPrint) (cb : Option (ProgressCb U)) (mcb vcb : Option (MatchCb U))
    (u0 : U) (run : NativeEnrollRun) (cr : Bool)
    (cands : List FpPrint) (scan enrolled : FpPrint)
    (nm : FpPrint → FpPrint → Bool) (img : FpImage) :
    ((d.enroll template cb u0 run cr).result = .error notOpenError ∧
      (d.enroll template cb u0 run cr).nativeInvoked = false) ∧
    ((d.verify enrolled vcb u0 scan nm).1 = .error notOpenError ∧
      (d.verify enrolled vcb u0 scan nm).2.2.2 = false) ∧
    ((d.identify cands mcb u0 scan nm).result = .error notOpenError ∧
      (d.identify cands mcb u0 scan nm).nativeInvoked = false) ∧
    ((d.captureImage img).1 = .error notOpenError ∧
      (d.captureImage img).2 = false) ∧
    (d.getFeatures.1 = .error notOpenError ∧ d.getFeatures.2 = false) ∧
    (d.getNrEnrollStages.1 = .error notOpenError ∧
      d.getNrEnrollStages.2 = false) := by
  simp [FpDevice.enroll, FpDevice.verify, FpDevice.identify,
    FpDevice.captureImage, FpDevice.getFeatures, FpDevice.getNrEnrollStages, h]

theorem closed_device_ops_fail_without_native_witness :
    devClosed.state = DevState.closed ∧
    ((devClosed.enroll emptyPrint (none : Option (ProgressCb Nat)) 0
        runTwoStages false).result = .error notOpenError ∧
      (devClosed.enroll emptyPrint (none : Option (ProgressCb Nat)) 0
        runTwoStages false).nativeInvoked = false) ∧
    ((devClosed.verify printA none 0 printB (fun _ _ => true)).1
        = .error notOpenError ∧
      (devClosed.verify printA none 0 printB (fun _ _ => true)).2.2.2 = false) ∧
    ((devClosed.identify [printA] none 0 printB (fun _ _ => true)).result
        = .error notOpenError ∧
      (devClosed.identify [printA] none 0 printB
        (fun _ _ => true)).nativeInvoked = false) ∧
    ((devClosed.captureImage ⟨1, 1, [0]⟩).1 = .error notOpenError ∧
      (devClosed.captureImage ⟨1, 1, [0]⟩).2 = false) ∧
    (devClosed.getFeatures.1 = .error notOpenError ∧
      devClosed.getFeatures.2 = false) ∧
    (devClosed.getNrEnrollStages.1 = .error notOpenError ∧
      devClosed.getNrEnrollStages.2 = false) :=
  ⟨rfl, closed_device_ops_fail_without_native devClosed rfl emptyPrint none none
    none 0 runTwoStages false [printA] printB printA (fun _ _ => true) ⟨1, 1, [0]⟩⟩

/-- C3: every enroll call on an open device produces exactly one terminal
outcome — either a final completed Print (the one the native routine
yielded, when not cancelled) or an enrollment error, the cancelled error
when cancelled mid-enrollment — after invoking the progress callback once
per enrollment stage event. -/
theorem enroll_exactly_one_terminal {U : Type} (d : FpDevice)
    (h : d.state = DevState.opened) (template : FpPrint) (f : ProgressCb U)
    (u0 : U) (run : NativeEnrollRun) (cr : Bool) :
    (d.enroll template (some f) u0 run cr).cbCount = run.stages.length ∧
    (((∃ p, (d.enroll template (some f) u0 run cr).result = .ok p) ∧
        ¬ ∃ e, (d.enroll template (some f) u0 run cr).result = .error e) ∨
      ((∃ e, (d.enroll template (some f) u0 run cr).result = .error e) ∧
        ¬ ∃ p, (d.enroll template (some f) u0 run cr).result = .ok p)) ∧
    (cr = false → ∀ p, run.outcome = .success p →
      (d.enroll template (some f) u0 run cr).result = .ok p) ∧
    (cr = true →
      (d.enroll template (some f) u0 run cr).result = .error cancelledError) := by
  have hne : ¬ d.state = DevState.closed := by rw [h]; intro hc; cases hc
  refine ⟨?_, ?_, ?_, ?_⟩
  · simp only [FpDevice.enroll, hne, if_false]
    simpa using enrollStep_count f d run.stages u0 0
  · simp only [FpDevice.enroll, hne, if_false]
    cases cr with
    | true => exact Or.inr ⟨⟨cancelledError, rfl⟩, by simp⟩
    | false =>
      cases hout : run.outcome with
      | success p => exact Or.inl ⟨⟨p, by simp [hout]⟩, by simp [hout]⟩
      | failure e => exact Or.inr ⟨⟨e, by simp [hout]⟩, by simp [hout]⟩
  · intro hcr p hout
    simp [FpDevice.enroll, hne, hcr, hout]
  · intro hcr
    simp [FpDevice.enroll, hne, hcr]

theorem enroll_exactly_one_terminal_witness :
    devOpened.state = DevState.opened ∧
    ((devOpened.enroll emptyPrint (some (fun _ _ _ _ (u : Nat) => u + 1)) 0
        runTwoStages false).cbCount = runTwoStages.stages.length ∧
      (((∃ p, (devOpened.enroll emptyPrint (some (fun _ _ _ _ (u : Nat) => u + 1)) 0
          runTwoStages false).result = .ok p) ∧
        ¬ ∃ e, (devOpened.enroll emptyPrint (some (fun _ _ _ _ (u : Nat) => u + 1)) 0
          runTwoStages false).result = .error e) ∨
      ((∃ e, (devOpened.enroll emptyPrint (some (fun _ _ _ _ (u : Nat) => u + 1)) 0
          runTwoStages false).result = .error e) ∧
        ¬ ∃ p, (devOpened.enroll emptyPrint (some (fun _ _ _ _ (u : Nat) => u + 1)) 0
          runTwoStages false).result = .ok p)) ∧
      (false = false → ∀ p, runTwoStages.outcome = .success p →
        (devOpened.enroll emptyPrint (some (fun _ _ _ _ (u : Nat) => u + 1)) 0
          runTwoStages false).result = .ok p) ∧
      (false = true →
        (devOpened.enroll emptyPrint (some (fun _ _ _ _ (u : Nat) => u + 1)) 0
          runTwoStages false).result = .error cancelledError)) :=
  ⟨rfl, enroll_exactly_one_terminal devOpened rfl emptyPrint
    (fun _ _ _ _ u => u + 1) 0 runTwoStages false⟩

/-- C4: the user data threaded through an enroll call is observable and
mutable from within every progress-callback invocation; the final user data
after the call is the per-invocation mutation applied once per invocation,
in order, to the initial value — every mutation is reflected and none is
lost. -/
theorem enroll_user_data_all_mutations {U : Type} (d : FpDevice)
    (h : d.state = DevState.opened) (template : FpPrint) (g : U → U) (u0 : U)
    (run : NativeEnrollRun) (cr : Bool) :
    (d.enroll template (some (fun _ _ _ _ u => g u)) u0 run cr).userData
        = g^[run.stages.length] u0 ∧
    (d.enroll template (some (fun _ _ _ _ u => g u)) u0 run cr).cbCount
        = run.stages.length := by
  have hne : ¬ d.state = DevState.closed := by rw [h]; intro hc; cases hc
  constructor
  · simp only [FpDevice.enroll, hne, if_false]
    exact enrollStep_iterate g d run.stages u0 0
  · simp only [FpDevice.enroll, hne, if_false]
    simpa using enrollStep_count (fun a b c e u => g u) d run.stages u0 0

theorem enroll_user_data_all_mutations_witness :
    devOpened.state = DevState.opened ∧
    (devOpened.enroll emptyPrint (some (fun _ _ _ _ (u : Nat) => u + 1)) 304
        runTwoStages false).userData = (fun u : Nat => u + 1)^[2] 304 ∧
    (devOpened.enroll emptyPrint (some (fun _ _ _ _ (u : Nat) => u + 1)) 304
        runTwoStages false).cbCount = 2 :=
  ⟨rfl, enroll_user_data_all_mutations devOpened rfl emptyPrint
    (fun u => u + 1) 304 runTwoStages false⟩

/-- C5: opening an already-open device fails with the Busy/AlreadyOpen
error; the first close on an open device succeeds and releases native
resources exactly once; a second close fails with the already-closed
(not-open) error and releases nothing. -/
theorem open_close_lifecycle (d : FpDevice) (h : d.state = DevState.opened) :
    d.openDev = .error alreadyOpenError ∧
    ∃ d' : FpDevice, d.close = (.ok (), d', true) ∧
      d'.state = DevState.closed ∧
      d'.releasedCount = d.releasedCount + 1 ∧
      d'.close = (.error alreadyClosedError, d', false) := by
  have hne : ¬ d.state = DevState.closed := by rw [h]; intro hc; cases hc
  refine ⟨by simp [FpDevice.openDev, h], ?_⟩
  refine ⟨{ d with state := .closed, releasedCount := d.releasedCount + 1 },
    ?_, rfl, rfl, ?_⟩
  · simp [FpDevice.close, hne]
  · simp [FpDevice.close]

theorem open_close_lifecycle_witness :
    devOpened.state = DevState.opened ∧
    (devOpened.openDev = .error alreadyOpenError ∧
      ∃ d' : FpDevice, devOpened.close = (.ok (), d', true) ∧
        d'.state = DevState.closed ∧
        d'.releasedCount = devOpened.releasedCount + 1 ∧
        d'.close = (.error alreadyClosedError, d', false)) :=
  ⟨rfl, open_close_lifecycle devOpened rfl⟩

/-- C6: identifying over an empty candidate collection on an open device
succeeds and returns no matched candidate, rather than an error. -/
theorem identify_empty_no_match {U : Type} (d : FpDevice)
    (h : d.state = DevState.opened) (cb : Option (MatchCb U)) (u0 : U)
    (scan : FpPrint) (nm : FpPrint → FpPrint → Bool) :
    (d.identify [] cb u0 scan nm).result = .ok none := by
  have hne : ¬ d.state = DevState.closed := by rw [h]; intro hc; cases hc
  simp [FpDevice.identify, hne]

theorem identify_empty_no_match_witness :
    devOpened.state = DevState.opened ∧
    (devOpened.identify [] (none : Option (MatchCb Nat)) 0 printB
      (fun _ _ => true)).result = .ok none :=
  ⟨rfl, identify_empty_no_match devOpened rfl none 0 printB (fun _ _ => true)⟩

/-- C7: identifying over a candidate collection in which exactly one
candidate matches the freshly captured scan returns that candidate, and the
candidate collection after the call is unchanged. -/
theorem identify_unique_match {U : Type} (d : FpDevice)
    (h : d.state = DevState.opened) (cb : Option (MatchCb U)) (u0 : U)
    (scan c : FpPrint) (pre post : List FpPrint)
    (nm : FpPrint → FpPrint → Bool)
    (hc : nm c scan = true)
    (hothers : ∀ x ∈ pre ++ post, nm x scan = false) :
    (d.identify (pre ++ c :: post) cb u0 scan nm).result = .ok (some c) ∧
    (d.identify (pre ++ c :: post) cb u0 scan nm).candidatesAfter
      = pre ++ c :: post := by
  have hne : ¬ d.state = DevState.closed := by rw [h]; intro hc'; cases hc'
  have hpre : pre.find? (fun x => nm x scan) = none := by
    rw [List.find?_eq_none]
    intro x hx
    simp [hothers x (List.mem_append_left post hx)]
  have hcons : (c :: post).find? (fun x => nm x scan) = some c := by
    simp [List.find?_cons, hc]
  have hfind : (pre ++ c :: post).find? (fun x => nm x scan) = some c := by
    rw [List.find?_append, hpre, Option.none_or, hcons]
  constructor
  · simp [FpDevice.identify, hne, hfind]
  · simp [FpDevice.identify, hne]

theorem identify_unique_match_witness :
    devOpened.state = DevState.opened ∧
    (fun x y : FpPrint => decide (x = y)) printA printA = true ∧
    (∀ x ∈ [printB] ++ [emptyPrint],
      (fun x y : FpPrint => decide (x = y)) x printA = false) ∧
    ((devOpened.identify ([printB] ++ printA :: [emptyPrint])
        (none : Option (MatchCb Nat)) 0 printA
        (fun x y => decide (x = y))).result = .ok (some printA) ∧
      (devOpened.identify ([printB] ++ printA :: [emptyPrint])
        (none : Option (MatchCb Nat)) 0 printA
        (fun x y => decide (x = y))).candidatesAfter
        = [printB] ++ printA :: [emptyPrint]) :=
  ⟨rfl, by decide, by decide,
    identify_unique_match devOpened rfl none 0 printA printA [printB] [emptyPrint]
      (fun x y => decide (x = y)) (by decide) (by decide)⟩

/-- C8: requesting cancellation of an in-flight enroll on an open device
yields the cancelled terminal error (whose kind is `Cancelled`), and the
device after the call is unchanged and still open, hence reusable. -/
theorem cancel_enroll_terminal {U : Type} (d : FpDevice)
    (h : d.state = DevState.opened) (template : FpPrint)
    (cb : Option (ProgressCb U)) (u0 : U) (run : NativeEnrollRun) :
    (d.enroll template cb u0 run true).result = .error cancelledError ∧
    cancelledError.kind = GErrorKind.cancelled ∧
    (d.enroll template cb u0 run true).dev = d ∧
    (d.enroll template cb u0 run true).dev.state = DevState.opened := by
  have hne : ¬ d.state = DevState.closed := by rw [h]; intro hc; cases hc
  refine ⟨?_, rfl, ?_, ?_⟩
  · simp [FpDevice.enroll, hne]
  · simp [FpDevice.enroll, hne]
  · simp [FpDevice.enroll, hne, h]

theorem cancel_enroll_terminal_witness :
    devOpened.state = DevState.opened ∧
    ((devOpened.enroll emptyPrint (none : Option (ProgressCb Nat)) 0
        runTwoStages true).result = .error cancelledError ∧
      cancelledError.kind = GErrorKind.cancelled ∧
      (devOpened.enroll emptyPrint (none : Option (ProgressCb Nat)) 0
        runTwoStages true).dev = devOpened ∧
      (devOpened.enroll emptyPrint (none : Option (ProgressCb Nat)) 0
        runTwoStages true).dev.state = DevState.opened) :=
  ⟨rfl, cancel_enroll_terminal devOpened rfl emptyPrint none 0 runTwoStages⟩

/-- C9 counterexample: at a native initialization outcome that failed, the
spec-side creation demands an initialization error, but the wrapper's
`FpContext::new` — whose return type, fixed by its callers in `src/lib.rs`,
carries no error channel — still hands the caller a context; the claimed
failure report to the caller does not exist. -/
theorem context_new_cannot_report_failure :
    contextCreateSpec { initOk := false, devices := [] }
        = .error { kind := .internal, message := "native initialization failed" } ∧
    FpContext.new { initOk := false, devices := [] } = { devices := [] } :=
  ⟨rfl, rfl⟩

/-- C9 amended: context creation as exposed by the wrapper is infallible —
`FpContext::new` returns a context handle for every native initialization
outcome, with no error reported to the caller, and `get_devices` on it
enumerates the native device list. -/
theorem context_new_infallible (n : NativeInit) :
    FpContext.new n = { devices := n.devices } ∧
    (FpContext.new n).getDevices = n.devices :=
  ⟨rfl, rfl⟩

/-- C10: during an identify call on an open device with a match callback,
every callback invocation receives the matched candidate as an optional
print — `none` exactly when no candidate matches the captured scan, and a
candidate from the collection that matches it otherwise — and, as a
separate argument, the newly scanned print. -/
theorem match_cb_receives_optional_match_and_new_print {U : Type}
    (d : FpDevice) (h : d.state = DevState.opened) (cands : List FpPrint)
    (f : MatchCb U) (u0 : U) (scan : FpPrint)
    (nm : FpPrint → FpPrint → Bool) :
    (d.identify cands (some f) u0 scan nm).invocations
        = [(cands.find? (fun c => nm c scan), scan)] ∧
    ∀ mp np, (mp, np) ∈ (d.identify cands (some f) u0 scan nm).invocations →
      np = scan ∧
      (mp = none ↔ ∀ c ∈ cands, nm c scan = false) ∧
      (∀ c, mp = some c → c ∈ cands ∧ nm c scan = true) := by
  have hne : ¬ d.state = DevState.closed := by rw [h]; intro hc; cases hc
  have hinv : (d.identify cands (some f) u0 scan nm).invocations
      = [(cands.find? (fun c => nm c scan), scan)] := by
    simp [FpDevice.identify, hne]
  refine ⟨hinv, ?_⟩
  intro mp np hmem
  rw [hinv, List.mem_singleton, Prod.mk.injEq] at hmem
  obtain ⟨hmp, hnp⟩ := hmem
  refine ⟨hnp, ?_, ?_⟩
  · rw [hmp, List.find?_eq_none]
    constructor
    · intro hall c hcmem
      have := hall c hcmem
      simpa using this
    · intro hall c hcmem
      simp [hall c hcmem]
  · intro c hcsome
    rw [hmp] at hcsome
    have hmem' : c ∈ cands := List.mem_of_find?_eq_some hcsome
    have hpc := List.find?_some hcsome
    exact ⟨hmem', by simpa using hpc⟩

theorem match_cb_receives_optional_match_and_new_print_witness :
    devOpened.state = DevState.opened ∧
    ((devOpened.identify [printA, printB]
        (some (fun _ _ _ _ (u : Nat) => u + 1)) 0 printB
        (fun x y => decide (x = y))).invocations
        = [([printA, printB].find?
            (fun c => decide (c = printB)), printB)] ∧
      ∀ mp np, (mp, np) ∈ (devOpened.identify [printA, printB]
          (some (fun _ _ _ _ (u : Nat) => u + 1)) 0 printB
          (fun x y => decide (x = y))).invocations →
        np = printB ∧
        (mp = none ↔ ∀ c ∈ [printA, printB], decide (c = printB) = false) ∧
        (∀ c, mp = some c → c ∈ [printA, printB] ∧ decide (c = printB) = true)) :=
  ⟨rfl, match_cb_receives_optional_match_and_new_print devOpened rfl
    [printA, printB] (fun _ _ _ _ u => u + 1) 0 printB
    (fun x y => decide (x = y))⟩
